import Mathlib

set_option maxRecDepth 4000

/-
Verification of the client-side controller in frontend/app.js: a shallow
embedding of its JavaScript value model, the JSON / numeric coercions it
relies on, its four click handlers, and the renderResults transformation.
All numbers are modelled as exact rationals (IEEE-754 rounding of doubles
is abstracted away); fallible operations return Option, where `none`
models a thrown JavaScript exception.
-/

/-- JavaScript numbers: NaN, the signed infinities, or a finite value. -/
inductive JSNum where
  | nan
  | posInf
  | negInf
  | num (q : ℚ)
deriving DecidableEq

/-- JavaScript values reachable in this program: JSON values plus undefined. -/
inductive JSValue where
  | jundefined
  | jnull
  | jbool (b : Bool)
  | jnum (n : JSNum)
  | jstr (s : String)
  | jarr (elems : List JSValue)
  | jobj (members : List (String × JSValue))

/-- JavaScript falsiness (ToBoolean yielding false). -/
def isFalsy : JSValue → Bool
  | .jundefined => true
  | .jnull => true
  | .jbool b => !b
  | .jnum .nan => true
  | .jnum (.num q) => q == 0
  | .jnum _ => false
  | .jstr s => s == ""
  | .jarr _ => false
  | .jobj _ => false

/-- First binding of a key in an object's member list. -/
def jlookup (key : String) : List (String × JSValue) → Option JSValue
  | [] => none
  | kv :: rest => if kv.1 = key then some kv.2 else jlookup key rest

/-- Property access `v[key]`: `none` models the TypeError thrown on
null/undefined; otherwise the member's value, or undefined if absent
(non-object primitives have no such own property). -/
def jsGetField (v : JSValue) (key : String) : Option JSValue :=
  match v with
  | .jundefined => none
  | .jnull => none
  | .jobj fs => some ((jlookup key fs).getD .jundefined)
  | _ => some .jundefined

/-- Object.entries: `none` models the TypeError on null/undefined; own
enumerable string-keyed entries otherwise (insertion order; the JS
reordering of integer-like keys is not modelled, and does not arise for
the goal-name keys used here). -/
def jsEntries : JSValue → Option (List (String × JSValue))
  | .jundefined => none
  | .jnull => none
  | .jobj fs => some fs
  | .jarr xs => some (xs.enum.map (fun p => (toString p.1, p.2)))
  | .jstr s => some (s.toList.enum.map (fun p => (toString p.1, JSValue.jstr (String.mk [p.2]))))
  | _ => some []

/-- ASCII whitespace recognised by JS trimming and Number() coercion. -/
def isJsWs (c : Char) : Bool :=
  c = ' ' || c = '\t' || c = '\n' || c = '\r' || c = '\x0b' || c = '\x0c'

/-- String.prototype.trim (ASCII whitespace). -/
def jsTrim (s : String) : String :=
  String.mk (((s.toList.dropWhile isJsWs).reverse.dropWhile isJsWs).reverse)

def digToNat (c : Char) : Nat := c.toNat - '0'.toNat

def decDigitsVal (ds : List Char) : Nat :=
  ds.foldl (fun acc c => 10 * acc + digToNat c) 0

def hexDigitVal (c : Char) : Nat :=
  if c.isDigit then digToNat c
  else if 'a' ≤ c ∧ c ≤ 'f' then c.toNat - 'a'.toNat + 10
  else c.toNat - 'A'.toNat + 10

def isHexDigit (c : Char) : Bool :=
  c.isDigit || (decide ('a' ≤ c) && decide (c ≤ 'f')) || (decide ('A' ≤ c) && decide (c ≤ 'F'))

/-- Unsigned radix literal body (after 0x/0o/0b), or NaN. -/
def parseRadix (radix : Nat) (isDig : Char → Bool) (dval : Char → Nat) (ds : List Char) : JSNum :=
  if ds ≠ [] ∧ ds.all isDig then
    .num ((ds.foldl (fun a c => radix * a + dval c) 0 : Nat) : ℚ)
  else .nan

/-- Unsigned JS decimal literal (digits, optional fraction, optional
exponent); the whole input must be consumed. -/
def parseJsDecimal (cs : List Char) : Option ℚ :=
  let intDs := cs.takeWhile Char.isDigit
  let rest1 := cs.drop intDs.length
  let (fracDs, rest2) :=
    match rest1 with
    | '.' :: r =>
      let f := r.takeWhile Char.isDigit
      (f, r.drop f.length)
    | _ => ([], rest1)
  if intDs.isEmpty ∧ fracDs.isEmpty then none
  else
    -- the digits denote m / 10^(fracDs.length); a signed exponent scales by 10^±e
    let m : ℕ := decDigitsVal intDs * 10 ^ fracDs.length + decDigitsVal fracDs
    match rest2 with
    | [] => some (mkRat m (10 ^ fracDs.length))
    | e :: r =>
      if e = 'e' ∨ e = 'E' then
        let (signNeg, r2) :=
          match r with
          | '+' :: t => (false, t)
          | '-' :: t => (true, t)
          | _ => (false, r)
        let eds := r2.takeWhile Char.isDigit
        if eds.isEmpty ∨ (r2.drop eds.length) ≠ [] then none
        else
          let ex := decDigitsVal eds
          some (if signNeg then mkRat m (10 ^ (fracDs.length + ex))
                else mkRat (m * 10 ^ ex) (10 ^ fracDs.length))
      else none

/-- Optionally signed decimal literal or Infinity, as accepted by Number(). -/
def decSigned (cs : List Char) : JSNum :=
  let (neg, body) :=
    match cs with
    | '+' :: r => (false, r)
    | '-' :: r => (true, r)
    | _ => (false, cs)
  if body = ['I', 'n', 'f', 'i', 'n', 'i', 't', 'y'] then (if neg then .negInf else .posInf)
  else
    match parseJsDecimal body with
    | some q => .num (if neg then -q else q)
    | none => .nan

def strToNumberCore (cs : List Char) : JSNum :=
  match cs with
  | '0' :: c :: rest =>
    if c = 'x' ∨ c = 'X' then parseRadix 16 isHexDigit hexDigitVal rest
    else if c = 'o' ∨ c = 'O' then
      parseRadix 8 (fun d => decide ('0' ≤ d) && decide (d ≤ '7')) digToNat rest
    else if c = 'b' ∨ c = 'B' then
      parseRadix 2 (fun d => decide (d = '0') || decide (d = '1')) digToNat rest
    else decSigned cs
  | _ => decSigned cs

/-- JS ToNumber on a string: the Number(s) coercion, over exact rationals. -/
def strToNumber (s : String) : JSNum :=
  let cs := ((s.toList.dropWhile isJsWs).reverse.dropWhile isJsWs).reverse
  match cs with
  | [] => .num 0
  | _ => strToNumberCore cs

/-- ToNumber of an array element as seen through Array.prototype.toString
followed by Number() (so booleans give NaN, null/undefined give 0). -/
def arrElemToNumber : JSValue → JSNum
  | .jundefined => .num 0
  | .jnull => .num 0
  | .jbool _ => .nan
  | .jnum n => n
  | .jstr s => strToNumber s
  | .jarr [] => .num 0
  | .jarr [x] => arrElemToNumber x
  | .jarr (_ :: _ :: _) => .nan
  | .jobj _ => .nan

/-- JS ToNumber on any value (arrays via their joined string form;
plain objects stringify to "[object Object]", hence NaN). -/
def jsToNumber : JSValue → JSNum
  | .jundefined => .nan
  | .jnull => .num 0
  | .jbool b => .num (if b then 1 else 0)
  | .jnum n => n
  | .jstr s => strToNumber s
  | .jarr [] => .num 0
  | .jarr [x] => arrElemToNumber x
  | .jarr (_ :: _ :: _) => .nan
  | .jobj _ => .nan

/-- `q * 100`, computed on the numerator (`qMul100_eq` below proves it
equals the rational product). -/
def qMul100 (q : ℚ) : ℚ := mkRat (q.num * 100) q.den

/-- Multiplication by the literal 100 as in `v*100`. -/
def jsNumMul100 : JSNum → JSNum
  | .nan => .nan
  | .posInf => .posInf
  | .negInf => .negInf
  | .num q => .num (qMul100 q)

/-- ⌊10·|q| + 1/2⌋ by integer division (the rational operations themselves
are irreducible, so the rounding is computed on numerator and denominator;
`fixedTenths_eq` below proves the floor characterisation). -/
def fixedTenths (q : ℚ) : ℕ := (20 * q.num.natAbs + q.den) / (2 * q.den)

/-- Number.prototype.toFixed(1): sign taken first (q < 0 iff q.num < 0),
then the magnitude is rounded to tenths with ties going up (the ECMA
"larger n" rule). -/
def toFixed1 : JSNum → String
  | .nan => "NaN"
  | .posInf => "Infinity"
  | .negInf => "-Infinity"
  | .num q =>
    (if q.num < 0 then "-" else "") ++
      toString (fixedTenths q / 10) ++ "." ++ toString (fixedTenths q % 10)

def qToFixed1 (q : ℚ) : String := toFixed1 (.num q)

/-- Groups of at most three, taken from the front. -/
def chunksOf3 : List Char → List (List Char)
  | [] => []
  | a :: b :: c :: d :: rest => [a, b, c] :: chunksOf3 (d :: rest)
  | l => [l]

/-- en-US thousands grouping of a natural number's decimal digits. -/
def groupNat (n : Nat) : String :=
  let ds := (toString n).toList.reverse
  String.mk (List.intercalate [','] (((chunksOf3 ds).map List.reverse).reverse))

def groupInt (n : ℤ) : String :=
  (if n < 0 then "-" else "") ++ groupNat n.natAbs

/-- ⌊q + 1/2⌋ (the Math.round rule: halves toward positive infinity) by
integer division; `roundHalfUpZ_eq` below proves the floor
characterisation. -/
def roundHalfUpZ (q : ℚ) : ℤ := (2 * q.num + (q.den : ℤ)) / (2 * (q.den : ℤ))

/-- `Math.round(x).toLocaleString()` as used for the summary dollar values:
halves round toward positive infinity, digits are grouped in the default
en-US locale. -/
def roundLocale : JSNum → String
  | .nan => "NaN"
  | .posInf => "∞"
  | .negInf => "-∞"
  | .num q => groupInt (roundHalfUpZ q)

/- JSON.parse, restricted to the JSON grammar. -/

/-- JSON insignificant whitespace. -/
def skipWs : List Char → List Char
  | [] => []
  | c :: cs => if c = ' ' ∨ c = '\t' ∨ c = '\n' ∨ c = '\r' then skipWs cs else c :: cs

def hexCharsVal (a b c d : Char) : Nat :=
  ((hexDigitVal a * 16 + hexDigitVal b) * 16 + hexDigitVal c) * 16 + hexDigitVal d

/-- JSON string body after the opening quote (escape sequences decoded;
surrogate-pair combination is not modelled). -/
def parseStr : List Char → Option (List Char × List Char)
  | [] => none
  | '"' :: rest => some ([], rest)
  | '\\' :: 'u' :: a :: b :: c :: d :: rest =>
    if isHexDigit a ∧ isHexDigit b ∧ isHexDigit c ∧ isHexDigit d then
      match parseStr rest with
      | some (s, r) => some (Char.ofNat (hexCharsVal a b c d) :: s, r)
      | none => none
    else none
  | '\\' :: c :: rest =>
    match (match c with
           | '"' => some '"'
           | '\\' => some '\\'
           | '/' => some '/'
           | 'b' => some '\x08'
           | 'f' => some '\x0c'
           | 'n' => some '\n'
           | 'r' => some '\r'
           | 't' => some '\t'
           | _ => none) with
    | some ch =>
      match parseStr rest with
      | some (s, r) => some (ch :: s, r)
      | none => none
    | none => none
  | c :: rest =>
    if c.toNat < 32 then none
    else
      match parseStr rest with
      | some (s, r) => some (c :: s, r)
      | none => none

/-- JSON number literal (leading zeros, bare signs and bare dots rejected). -/
def parseJsonNumber (cs : List Char) : Option (ℚ × List Char) :=
  let (neg, r1) :=
    match cs with
    | '-' :: r => (true, r)
    | _ => (false, cs)
  let intDs := r1.takeWhile Char.isDigit
  if intDs.isEmpty then none
  else if intDs.length > 1 ∧ intDs.head? = some '0' then none
  else
    let r2 := r1.drop intDs.length
    let finish := fun (fracDs : List Char) (rest : List Char) =>
      -- the digits denote ±m / 10^(fracDs.length), scaled by 10^±e
      let m : ℕ := decDigitsVal intDs * 10 ^ fracDs.length + decDigitsVal fracDs
      let sm : ℤ := if neg then -(m : ℤ) else (m : ℤ)
      match rest with
      | e :: t =>
        if e = 'e' ∨ e = 'E' then
          let (eneg, t2) :=
            match t with
            | '+' :: u => (false, u)
            | '-' :: u => (true, u)
            | _ => (false, t)
          let eds := t2.takeWhile Char.isDigit
          if eds.isEmpty then none
          else
            let ex := decDigitsVal eds
            some ((if eneg then mkRat sm (10 ^ (fracDs.length + ex))
                   else mkRat (sm * 10 ^ ex) (10 ^ fracDs.length)), t2.drop eds.length)
        else some (mkRat sm (10 ^ fracDs.length), rest)
      | [] => some (mkRat sm (10 ^ fracDs.length), [])
    match r2 with
    | '.' :: t =>
      let f := t.takeWhile Char.isDigit
      if f.isEmpty then none else finish f (t.drop f.length)
    | _ => finish [] r2

/-- Replace the first binding of a key, keeping its position, else append:
the JS rule for a duplicate key in an object literal. -/
def setMember : List (String × JSValue) → String → JSValue → List (String × JSValue)
  | [], k, v => [(k, v)]
  | kv :: rest, k, v => if kv.1 = k then (k, v) :: rest else kv :: setMember rest k v

def objFromMembers (fs : List (String × JSValue)) : List (String × JSValue) :=
  fs.foldl (fun acc kv => setMember acc kv.1 kv.2) []

mutual

def parseJsonVal : Nat → List Char → Option (JSValue × List Char)
  | 0, _ => none
  | f + 1, cs =>
    match skipWs cs with
    | 'n' :: 'u' :: 'l' :: 'l' :: rest => some (.jnull, rest)
    | 't' :: 'r' :: 'u' :: 'e' :: rest => some (.jbool true, rest)
    | 'f' :: 'a' :: 'l' :: 's' :: 'e' :: rest => some (.jbool false, rest)
    | '"' :: rest =>
      (match parseStr rest with
       | some (s, r) => some (.jstr (String.mk s), r)
       | none => none)
    | '[' :: rest =>
      (match skipWs rest with
       | ']' :: r => some (.jarr [], r)
       | _ =>
         match parseJsonItems f rest with
         | some (xs, r) => some (.jarr xs, r)
         | none => none)
    | '{' :: rest =>
      (match skipWs rest with
       | '}' :: r => some (.jobj [], r)
       | _ =>
         match parseJsonMembers f rest with
         | some (fs, r) => some (.jobj (objFromMembers fs), r)
         | none => none)
    | rest =>
      match parseJsonNumber rest with
      | some (q, r) => some (.jnum (.num q), r)
      | none => none

def parseJsonItems : Nat → List Char → Option (List JSValue × List Char)
  | 0, _ => none
  | f + 1, cs =>
    match parseJsonVal f cs with
    | none => none
    | some (v, r) =>
      match skipWs r with
      | ',' :: r2 =>
        (match parseJsonItems f r2 with
         | some (xs, r3) => some (v :: xs, r3)
         | none => none)
      | ']' :: r2 => some ([v], r2)
      | _ => none

def parseJsonMembers : Nat → List Char → Option (List (String × JSValue) × List Char)
  | 0, _ => none
  | f + 1, cs =>
    match skipWs cs with
    | '"' :: rest =>
      (match parseStr rest with
       | some (k, r) =>
         (match skipWs r with
          | ':' :: r2 =>
            (match parseJsonVal f r2 with
             | none => none
             | some (v, r3) =>
               match skipWs r3 with
               | ',' :: r4 =>
                 (match parseJsonMembers f r4 with
                  | some (fs, r5) => some ((String.mk k, v) :: fs, r5)
                  | none => none)
               | '}' :: r4 => some ([(String.mk k, v)], r4)
               | _ => none)
          | _ => none)
       | none => none)
    | _ => none

end

/-- JSON.parse: a full-text parse, surrounding whitespace allowed; `none`
models the thrown SyntaxError. The fuel bound exceeds any possible
recursion depth for the given text. -/
def jsonParse (s : String) : Option JSValue :=
  match parseJsonVal (2 * s.length + 4) s.toList with
  | some (v, rest) => if skipWs rest = [] then some v else none
  | none => none

/- JSON.stringify(v, null, 2), as used to mirror a parsed portfolio into
the editor. -/

def hexDigitChar (n : Nat) : Char :=
  if n < 10 then Char.ofNat ('0'.toNat + n) else Char.ofNat ('a'.toNat + n - 10)

def jsonEscapeChar (c : Char) : List Char :=
  if c = '"' then ['\\', '"']
  else if c = '\\' then ['\\', '\\']
  else if c = '\n' then ['\\', 'n']
  else if c = '\r' then ['\\', 'r']
  else if c = '\t' then ['\\', 't']
  else if c = '\x08' then ['\\', 'b']
  else if c = '\x0c' then ['\\', 'f']
  else if c.toNat < 32 then
    ['\\', 'u', '0', '0', hexDigitChar (c.toNat / 16), hexDigitChar (c.toNat % 16)]
  else [c]

def quoteJson (s : String) : String :=
  "\"" ++ String.mk (s.toList.map jsonEscapeChar).flatten ++ "\""

/-- Multiplicity of p in n (fuelled). -/
def countP : Nat → Nat → Nat → Nat
  | 0, _, _ => 0
  | f + 1, p, n => if n % p = 0 ∧ n ≠ 0 ∧ p > 1 then countP f p (n / p) + 1 else 0

/-- Exact decimal rendering of a rational whose denominator divides a power
of ten (every JSON-parsed number has this form); abstracts the JS
shortest-roundtrip double formatting. -/
def qDecString (q : ℚ) : String :=
  if q.den = 1 then toString q.num
  else
    let a := countP q.den 2 q.den
    let b := countP q.den 5 q.den
    let k := max a b
    if q.den = 2 ^ a * 5 ^ b then
      let n := (q.num * (10 : ℤ) ^ k) / (q.den : ℤ)
      let ds := toString n.natAbs
      let padded := String.mk (List.replicate (k + 1 - ds.length) '0') ++ ds
      let cut := padded.length - k
      (if q.num < 0 then "-" else "") ++
        (String.mk (padded.toList.take cut)) ++ "." ++ (String.mk (padded.toList.drop cut))
    else toString q.num ++ "/" ++ toString q.den

def jsNumToJsonString : JSNum → String
  | .num q => qDecString q
  | _ => "null"

mutual

def stringify2 : Nat → JSValue → Option String
  | _, .jundefined => none
  | _, .jnull => some "null"
  | _, .jbool b => some (if b then "true" else "false")
  | _, .jnum n => some (jsNumToJsonString n)
  | _, .jstr s => some (quoteJson s)
  | ind, .jarr xs =>
    match xs with
    | [] => some "[]"
    | _ =>
      let inner := String.mk (List.replicate (ind + 2) ' ')
      let items := stringifyArr (ind + 2) xs
      some ("[\n" ++ String.intercalate ",\n" (items.map (fun s => inner ++ s)) ++ "\n" ++
            String.mk (List.replicate ind ' ') ++ "]")
  | ind, .jobj fs =>
    match stringifyObj (ind + 2) fs with
    | [] => some "\x7b\x7d"
    | kept =>
      let inner := String.mk (List.replicate (ind + 2) ' ')
      some ("\x7b\n" ++ String.intercalate ",\n" (kept.map (fun s => inner ++ s)) ++ "\n" ++
            String.mk (List.replicate ind ' ') ++ "\x7d")

def stringifyArr : Nat → List JSValue → List String
  | _, [] => []
  | ind, x :: xs => ((stringify2 ind x).getD "null") :: stringifyArr ind xs

def stringifyObj : Nat → List (String × JSValue) → List String
  | _, [] => []
  | ind, kv :: fs =>
    match stringify2 ind kv.2 with
    | some s => (quoteJson kv.1 ++ ": " ++ s) :: stringifyObj ind fs
    | none => stringifyObj ind fs

end

/-- `el.value = JSON.stringify(p, null, 2)`: an undefined stringify result
is coerced to the text "undefined" by the DOM value setter. -/
def jsonInputDisplay (p : JSValue) : String := (stringify2 0 p).getD "undefined"

/- Plotly chart data, as far as the source sets it. -/

structure PlotLine where
  width : Nat
  color : Option String

structure Trace where
  x : List String
  y : JSValue
  mode : String
  line : PlotLine
  fill : Option String
  fillcolor : Option String
  showlegend : Option Bool
  name : String
  hoverinfo : Option String

structure FanPlot where
  traces : List Trace
  title : String
  xaxisTitle : String
  yaxisTitle : String

structure BarTrace where
  x : List Nat
  y : List JSValue
  name : String
  color : String

structure HistPlot where
  bars : List BarTrace
  title : String

/-- The page state touched by app.js: the module-level
`currentPortfolioJSON`, the four display slots, and the two Plotly
surfaces (none until first drawn). -/
structure AppState where
  currentPortfolioJSON : JSValue
  jsonInput : String
  parseStatusText : String
  parseStatusIsError : Bool
  simSummary : String
  probGoalsHTML : String
  fanChart : Option FanPlot
  histChart : Option HistPlot

/-- Environment-chosen result of a fetch: a network failure, or an HTTP
response with its status code and raw body text. -/
inductive FetchOutcome where
  | netError
  | response (status : Nat) (body : String)

/-- Response.ok: status in the inclusive range 200–299. -/
def respOk (status : Nat) : Bool := 200 ≤ status && status ≤ 299

/-- The parseBtn click handler (app.js lines 12–29). `file` is the picker's
first file (none when empty); `outcome` is the environment's result for the
issued fetch (ignored when no request is issued). Returns the new state and
whether a request was issued. -/
def parseClick (file : Option Unit) (outcome : FetchOutcome) (st : AppState) : AppState × Bool :=
  match file with
  | none =>
    ({ st with parseStatusText := "Please choose a .docx file", parseStatusIsError := true }, false)
  | some _ =>
    let st1 := { st with parseStatusText := "Parsing…", parseStatusIsError := false }
    let failed := { st1 with parseStatusText := "Failed to parse document", parseStatusIsError := true }
    match outcome with
    | .netError => (failed, true)
    | .response status body =>
      if ¬ respOk status then (failed, true)
      else
        match jsonParse body with
        | none => (failed, true)
        | some data =>
          match jsGetField data "portfolio" with
          | none => (failed, true)
          | some p =>
            ({ st1 with currentPortfolioJSON := p,
                        jsonInput := jsonInputDisplay p,
                        parseStatusText := "Parsed successfully ✓",
                        parseStatusIsError := false }, true)

/-- The useJsonBtn click handler (lines 31–39): parse the trimmed editor
text; on success overwrite the store, otherwise leave everything as is.
Returns the new state and the alert text shown. -/
def useJsonClick (st : AppState) : AppState × String :=
  match jsonParse (jsTrim st.jsonInput) with
  | some v => ({ st with currentPortfolioJSON := v }, "Portfolio JSON loaded.")
  | none => (st, "Invalid JSON.")

/-- The clearJsonBtn click handler (lines 41–44). -/
def clearJsonClick (st : AppState) : AppState :=
  { st with jsonInput := "", currentPortfolioJSON := .jnull }

/-- The body sent to POST /simulate. -/
structure SimRequest where
  portfolio : JSValue
  n_paths : JSNum
  seed : JSNum

/-- JavaScript `a || b`. -/
def jsOr (a b : JSValue) : JSValue := if isFalsy a then b else a

structure SimStartOut where
  state : AppState
  request : Option SimRequest
  alert : Option String

/-- The synchronous prefix of the simulateBtn click handler (lines 46–57):
falsiness gate, parameter defaulting via `Number(input || default)`, the
"Simulating…" status write, and the request issue. -/
def simulateStart (nPathsValue seedValue : String) (st : AppState) : SimStartOut :=
  if isFalsy st.currentPortfolioJSON then
    { state := st, request := none,
      alert := some "Load a portfolio first (parse or paste JSON)." }
  else
    let nPaths := jsToNumber (jsOr (.jstr nPathsValue) (.jnum (.num 10000)))
    let seed := jsToNumber (jsOr (.jstr seedValue) (.jnum (.num 42)))
    { state := { st with simSummary := "Simulating…" },
      request := some { portfolio := st.currentPortfolioJSON, n_paths := nPaths, seed := seed },
      alert := none }

/-- `v.length`: `none` models the TypeError on null/undefined. -/
def jsLength (v : JSValue) : Option JSValue :=
  match v with
  | .jundefined => none
  | .jnull => none
  | .jarr xs => some (.jnum (.num xs.length))
  | .jstr s => some (.jnum (.num s.length))
  | .jobj fs => some ((jlookup "length" fs).getD .jundefined)
  | _ => some .jundefined

/-- Length of `Array(v)`: `none` models the RangeError on a numeric
argument that is not a whole number below 2^32; a non-numeric argument
yields a one-element array. -/
def arrayCtorLen (v : JSValue) : Option Nat :=
  match v with
  | .jnum (.num q) =>
    if 0 ≤ q.num ∧ q.den = 1 ∧ q.num.toNat < 4294967296 then some q.num.toNat else none
  | .jnum _ => none
  | _ => some 1

/-- One goal line of the summary text: `${k}: ${(v*100).toFixed(1)}%`. -/
def probLineOf (kv : String × JSValue) : String :=
  kv.1 ++ ": " ++ toFixed1 (jsNumMul100 (jsToNumber kv.2)) ++ "%"

/-- One probability pill of the indicator block. -/
def pillOf (kv : String × JSValue) : String :=
  "<div class=\"pill\"><b>" ++ kv.1 ++ "</b> " ++ toFixed1 (jsNumMul100 (jsToNumber kv.2)) ++ "%</div>"

/-- Outcome of running renderResults on a response value: which DOM writes
happen before an exception (if any) escapes. The source's write order is
summary text, probability pills, fan chart, histogram, so an exception
either precedes all writes or falls between the pill write and the chart
draws. -/
inductive RenderEval where
  | throwBeforeWrites
  | throwAfterSummary (summary probHTML : String)
  | success (summary probHTML : String) (fan : FanPlot) (hist : HistPlot)

/-- The summary text template (lines 69–78), as a function of the values
read from the response: the header, the per-goal lines, a blank line, and
the two terminal lines. -/
def summaryTextJS (entries : List (String × JSValue)) (med p5 p95 : JSValue) : String :=
  String.intercalate "\n"
    ["Goal Probabilities",
     String.intercalate "\n" (entries.map probLineOf),
     "",
     "Median terminal: $" ++ roundLocale (jsToNumber med),
     "5th–95th: $" ++ roundLocale (jsToNumber p5) ++ " – $" ++ roundLocale (jsToNumber p95)]

/-- The probability block innerHTML (lines 82–83). -/
def probHTMLJS (entries : List (String × JSValue)) : String :=
  String.join (entries.map pillOf)

/-- The fan-chart x values (lines 89–90): each month index over 12, to one
decimal. -/
def yearsJS (n : Nat) : List String :=
  (List.range n).map (fun m : ℕ => toFixed1 (.num (mkRat (m : ℤ) 12)))

/-- The three fan-chart traces in draw order (lines 92–110): the p90
boundary with no visible line, the p10 boundary filled to it, the p50
median line. -/
def fanPlotJS (years : List String) (p10 p50 p90 : JSValue) : FanPlot :=
  { traces :=
      [{ x := years, y := p90, mode := "lines",
         line := { width := 0, color := none }, fill := none, fillcolor := none,
         showlegend := some false, name := "90th", hoverinfo := some "skip" },
       { x := years, y := p10, mode := "lines",
         line := { width := 0, color := none }, fill := some "tonexty",
         fillcolor := some "rgba(33,150,243,0.15)",
         showlegend := some false, name := "10th", hoverinfo := some "skip" },
       { x := years, y := p50, mode := "lines",
         line := { width := 2, color := some "#2196F3" }, fill := none,
         fillcolor := none, showlegend := none, name := "Median", hoverinfo := none }],
    title := "Projected Wealth (Percentiles)",
    xaxisTitle := "Years", yaxisTitle := "Portfolio Value ($)" }

/-- The terminal-wealth marker bars (lines 115–127). -/
def histPlotJS (p5 med p95 : JSValue) : HistPlot :=
  { bars :=
      [{ x := [0], y := [p5], name := "P5", color := "#aaa" },
       { x := [1], y := [med], name := "Median", color := "#2196F3" },
       { x := [2], y := [p95], name := "P95", color := "#aaa" }],
    title := "Terminal Wealth Markers" }

/-- renderResults (lines 67–127) as a pure evaluation of the response
value `data`, following the source's read order; each displayed piece is
a pure function of the values read, factored out above. -/
def renderEval (data : JSValue) : RenderEval :=
  match jsGetField data "prob_by_goal" with
  | none => .throwBeforeWrites
  | some pbg =>
    match jsEntries pbg with
    | none => .throwBeforeWrites
    | some entries =>
      -- data survived a property access above, so it is not null/undefined
      -- and this access cannot throw
      let s := (jsGetField data "summary").getD .jundefined
      match jsGetField s "median_terminal" with
      | none => .throwBeforeWrites
      | some med =>
        -- s survived the access above, so the remaining reads cannot throw
        let p5 := (jsGetField s "p5_terminal").getD .jundefined
        let p95 := (jsGetField s "p95_terminal").getD .jundefined
        let pt := (jsGetField data "ptiles_over_time").getD .jundefined
        match jsGetField pt "p10", jsGetField pt "p50", jsGetField pt "p90" with
        | some p10, some p50, some p90 =>
          (match jsLength p50 with
           | none => .throwAfterSummary (summaryTextJS entries med p5 p95) (probHTMLJS entries)
           | some lenv =>
             match arrayCtorLen lenv with
             | none => .throwAfterSummary (summaryTextJS entries med p5 p95) (probHTMLJS entries)
             | some n =>
               .success (summaryTextJS entries med p5 p95) (probHTMLJS entries)
                 (fanPlotJS (yearsJS n) p10 p50 p90) (histPlotJS p5 med p95))
        | _, _, _ => .throwAfterSummary (summaryTextJS entries med p5 p95) (probHTMLJS entries)

/-- Apply renderResults to the app state: the state after whichever DOM
writes happened, plus whether an exception escaped to the caller. -/
def renderResults (data : JSValue) (st : AppState) : AppState × Bool :=
  match renderEval data with
  | .throwBeforeWrites => (st, true)
  | .throwAfterSummary summary probHTML =>
    ({ st with simSummary := summary, probGoalsHTML := probHTML }, true)
  | .success summary probHTML fan hist =>
    ({ st with simSummary := summary, probGoalsHTML := probHTML,
               fanChart := some fan, histChart := some hist }, false)

/-- The continuation of the simulateBtn handler after its fetch resolves
(lines 58–64): non-ok status, a non-JSON body, or a throwing render all
land in the catch block, which overwrites the summary slot. -/
def simulateResume (outcome : FetchOutcome) (st : AppState) : AppState :=
  match outcome with
  | .netError => { st with simSummary := "Simulation failed." }
  | .response status body =>
    if ¬ respOk status then { st with simSummary := "Simulation failed." }
    else
      match jsonParse body with
      | none => { st with simSummary := "Simulation failed." }
      | some data =>
        match renderResults data st with
        | (st2, true) => { st2 with simSummary := "Simulation failed." }
        | (st2, false) => st2

/-- An outcome on which the simulate handler reaches its catch block. -/
def simAttemptFails (outcome : FetchOutcome) : Bool :=
  match outcome with
  | .netError => true
  | .response status body =>
    if ¬ respOk status then true
    else
      match jsonParse body with
      | none => true
      | some data =>
        match renderEval data with
        | .success _ _ _ _ => false
        | _ => true

/- A well-shaped SimulationResponse and its JSON image. -/

structure SimSummaryData where
  median_terminal : ℚ
  p5_terminal : ℚ
  p95_terminal : ℚ

structure SimulationResponse where
  prob_by_goal : List (String × ℚ)
  summary : SimSummaryData
  p10 : List ℚ
  p50 : List ℚ
  p90 : List ℚ

def embedResponse (r : SimulationResponse) : JSValue :=
  .jobj
    [("prob_by_goal", .jobj (r.prob_by_goal.map (fun kv => (kv.1, JSValue.jnum (.num kv.2))))),
     ("summary", .jobj
        [("median_terminal", .jnum (.num r.summary.median_terminal)),
         ("p5_terminal", .jnum (.num r.summary.p5_terminal)),
         ("p95_terminal", .jnum (.num r.summary.p95_terminal))]),
     ("ptiles_over_time", .jobj
        [("p10", .jarr (r.p10.map (fun q => JSValue.jnum (.num q)))),
         ("p50", .jarr (r.p50.map (fun q => JSValue.jnum (.num q)))),
         ("p90", .jarr (r.p90.map (fun q => JSValue.jnum (.num q))))])]

/- UI event traces for overlapping simulate requests. -/

/-- A simulate click, or the arrival of the response answering the
request with the given issue index. The handler has no sequence token, so
the index is invisible to it. -/
inductive UIEvent where
  | simulateClickEvent (nPathsValue seedValue : String)
  | simulateResponseArrives (requestIndex : Nat) (outcome : FetchOutcome)

def stepUI (st : AppState) : UIEvent → AppState
  | .simulateClickEvent n s => (simulateStart n s st).state
  | .simulateResponseArrives _ o => simulateResume o st

def runUI (st : AppState) (evs : List UIEvent) : AppState := evs.foldl stepUI st

/-- The page as loaded: no portfolio, empty editor, no charts drawn. -/
def initialState : AppState :=
  { currentPortfolioJSON := .jnull, jsonInput := "", parseStatusText := "",
    parseStatusIsError := false, simSummary := "", probGoalsHTML := "",
    fanChart := none, histChart := none }

/-- A state in which a portfolio has already been loaded. -/
def loadedState : AppState :=
  { initialState with currentPortfolioJSON := .jobj [("accounts", .jarr [])] }

/- Rendered-output forms of a well-shaped response. -/

/-- One summary goal line, in source format and half-up rounding. -/
def goalLineText (kv : String × ℚ) : String :=
  kv.1 ++ ": " ++ qToFixed1 (qMul100 kv.2) ++ "%"

/-- One probability pill, in source format. -/
def goalPillText (kv : String × ℚ) : String :=
  "<div class=\"pill\"><b>" ++ kv.1 ++ "</b> " ++ qToFixed1 (qMul100 kv.2) ++ "%</div>"

/-- A dollar amount rounded half-up to an integer and thousands-grouped. -/
def dollarGrouped (q : ℚ) : String := groupInt (roundHalfUpZ q)

/-- The summary text the code produces for a well-shaped response. -/
def renderedSummaryOf (r : SimulationResponse) : String :=
  String.intercalate "\n"
    ["Goal Probabilities",
     String.intercalate "\n" (r.prob_by_goal.map goalLineText),
     "",
     "Median terminal: $" ++ dollarGrouped r.summary.median_terminal,
     "5th–95th: $" ++ dollarGrouped r.summary.p5_terminal ++ " – $" ++
       dollarGrouped r.summary.p95_terminal]

def renderedPillsOf (r : SimulationResponse) : String :=
  String.join (r.prob_by_goal.map goalPillText)

/-- The fan-chart x axis derived from a series length. -/
def yearsAxisOf (n : Nat) : List String :=
  (List.range n).map (fun m : ℕ => qToFixed1 (mkRat (m : ℤ) 12))

def fanPlotOf (r : SimulationResponse) : FanPlot :=
  { traces :=
      [{ x := yearsAxisOf r.p50.length,
         y := .jarr (r.p90.map (fun q => JSValue.jnum (.num q))), mode := "lines",
         line := { width := 0, color := none }, fill := none, fillcolor := none,
         showlegend := some false, name := "90th", hoverinfo := some "skip" },
       { x := yearsAxisOf r.p50.length,
         y := .jarr (r.p10.map (fun q => JSValue.jnum (.num q))), mode := "lines",
         line := { width := 0, color := none }, fill := some "tonexty",
         fillcolor := some "rgba(33,150,243,0.15)",
         showlegend := some false, name := "10th", hoverinfo := some "skip" },
       { x := yearsAxisOf r.p50.length,
         y := .jarr (r.p50.map (fun q => JSValue.jnum (.num q))), mode := "lines",
         line := { width := 2, color := some "#2196F3" }, fill := none,
         fillcolor := none, showlegend := none, name := "Median", hoverinfo := none }],
    title := "Projected Wealth (Percentiles)",
    xaxisTitle := "Years", yaxisTitle := "Portfolio Value ($)" }

def histPlotOf (r : SimulationResponse) : HistPlot :=
  { bars :=
      [{ x := [0], y := [.jnum (.num r.summary.p5_terminal)], name := "P5", color := "#aaa" },
       { x := [1], y := [.jnum (.num r.summary.median_terminal)], name := "Median",
         color := "#2196F3" },
       { x := [2], y := [.jnum (.num r.summary.p95_terminal)], name := "P95", color := "#aaa" }],
    title := "Terminal Wealth Markers" }

/- Concrete fixtures used by witnesses and counterexamples. -/

/-- The spec's worked example: one goal at probability 0.823, summary
values 1234567.4 / 500000 / 3000000. -/
def demoResponse : SimulationResponse :=
  { prob_by_goal := [("retirement", mkRat 823 1000)],
    summary := { median_terminal := mkRat 12345674 10, p5_terminal := 500000,
                 p95_terminal := 3000000 },
    p10 := [1, 2], p50 := [1, 2], p90 := [1, 2] }

/-- A response whose p50 is too long for the Array constructor. -/
def bigResponse : SimulationResponse :=
  { demoResponse with p50 := List.replicate 4294967296 1 }

/-- A state with a loaded portfolio and previously rendered charts. -/
def chartedState : AppState :=
  { loadedState with fanChart := some (fanPlotOf demoResponse),
                     histChart := some (histPlotOf demoResponse) }

def jsonSampleState : AppState :=
  { initialState with jsonInput := " [1, 2.5, \"x\", null, true] " }

/-- A simulate response body with median 111 (first request's response). -/
def simBodyA : String :=
  "\x7b\"prob_by_goal\":\x7b\"g\":1\x7d,\"summary\":\x7b\"median_terminal\":111,\"p5_terminal\":1,\"p95_terminal\":1\x7d,\"ptiles_over_time\":\x7b\"p10\":[1],\"p50\":[1],\"p90\":[1]\x7d\x7d"

/-- A simulate response body with median 222 (second request's response). -/
def simBodyB : String :=
  "\x7b\"prob_by_goal\":\x7b\"g\":1\x7d,\"summary\":\x7b\"median_terminal\":222,\"p5_terminal\":1,\"p95_terminal\":1\x7d,\"ptiles_over_time\":\x7b\"p10\":[1],\"p50\":[1],\"p90\":[1]\x7d\x7d"

def responseA : SimulationResponse :=
  { prob_by_goal := [("g", 1)],
    summary := { median_terminal := 111, p5_terminal := 1, p95_terminal := 1 },
    p10 := [1], p50 := [1], p90 := [1] }

def responseB : SimulationResponse :=
  { prob_by_goal := [("g", 1)],
    summary := { median_terminal := 222, p5_terminal := 1, p95_terminal := 1 },
    p10 := [1], p50 := [1], p90 := [1] }

/-- The summary layout asserted by the specification for C6: per-goal
lines, a blank separator, then the two terminal lines — with no header
line. -/
def specSummaryText (r : SimulationResponse) : String :=
  String.intercalate "\n"
    (r.prob_by_goal.map goalLineText ++
      ["", "Median terminal: $" ++ dollarGrouped r.summary.median_terminal,
       "5th–95th: $" ++ dollarGrouped r.summary.p5_terminal ++ " – $" ++
         dollarGrouped r.summary.p95_terminal])

lemma arrayCtorLen_natCast (n : ℕ) :
    arrayCtorLen (.jnum (.num (n : ℚ))) = if n < 4294967296 then some n else none := by
  simp only [arrayCtorLen, Rat.num_natCast, Rat.den_natCast, Int.toNat_natCast]
  split_ifs with h1 h2 h2
  · rfl
  · exact (h2 (by omega)).elim
  · exact (h1 ⟨by omega, trivial, by omega⟩).elim
  · rfl

/-- Evaluating renderResults on the JSON image of a well-shaped response:
everything renders, except that a p50 longer than the Array constructor
admits makes the chart step throw after the text writes. -/
lemma renderEval_embed (r : SimulationResponse) :
    renderEval (embedResponse r) =
      if r.p50.length < 4294967296 then
        .success (renderedSummaryOf r) (renderedPillsOf r) (fanPlotOf r) (histPlotOf r)
      else .throwAfterSummary (renderedSummaryOf r) (renderedPillsOf r) := by
  have hlines : (r.prob_by_goal.map (fun kv => (kv.1, JSValue.jnum (.num kv.2)))).map probLineOf
      = r.prob_by_goal.map goalLineText := by
    rw [List.map_map]; rfl
  have hpills : (r.prob_by_goal.map (fun kv => (kv.1, JSValue.jnum (.num kv.2)))).map pillOf
      = r.prob_by_goal.map goalPillText := by
    rw [List.map_map]; rfl
  have hpbg : jsGetField (embedResponse r) "prob_by_goal"
      = some (.jobj (r.prob_by_goal.map (fun kv => (kv.1, JSValue.jnum (.num kv.2))))) := rfl
  have hsum : jsGetField (embedResponse r) "summary"
      = some (.jobj [("median_terminal", .jnum (.num r.summary.median_terminal)),
                     ("p5_terminal", .jnum (.num r.summary.p5_terminal)),
                     ("p95_terminal", .jnum (.num r.summary.p95_terminal))]) := rfl
  have hpt : jsGetField (embedResponse r) "ptiles_over_time"
      = some (.jobj [("p10", .jarr (r.p10.map (fun q => JSValue.jnum (.num q)))),
                     ("p50", .jarr (r.p50.map (fun q => JSValue.jnum (.num q)))),
                     ("p90", .jarr (r.p90.map (fun q => JSValue.jnum (.num q))))]) := rfl
  have hmed : jsGetField (.jobj [("median_terminal", .jnum (.num r.summary.median_terminal)),
                     ("p5_terminal", .jnum (.num r.summary.p5_terminal)),
                     ("p95_terminal", .jnum (.num r.summary.p95_terminal))]) "median_terminal"
      = some (.jnum (.num r.summary.median_terminal)) := rfl
  have hp5 : jsGetField (.jobj [("median_terminal", .jnum (.num r.summary.median_terminal)),
                     ("p5_terminal", .jnum (.num r.summary.p5_terminal)),
                     ("p95_terminal", .jnum (.num r.summary.p95_terminal))]) "p5_terminal"
      = some (.jnum (.num r.summary.p5_terminal)) := rfl
  have hp95 : jsGetField (.jobj [("median_terminal", .jnum (.num r.summary.median_terminal)),
                     ("p5_terminal", .jnum (.num r.summary.p5_terminal)),
                     ("p95_terminal", .jnum (.num r.summary.p95_terminal))]) "p95_terminal"
      = some (.jnum (.num r.summary.p95_terminal)) := rfl
  have hq10 : jsGetField (.jobj [("p10", .jarr (r.p10.map (fun q => JSValue.jnum (.num q)))),
                     ("p50", .jarr (r.p50.map (fun q => JSValue.jnum (.num q)))),
                     ("p90", .jarr (r.p90.map (fun q => JSValue.jnum (.num q))))]) "p10"
      = some (.jarr (r.p10.map (fun q => JSValue.jnum (.num q)))) := rfl
  have hq50 : jsGetField (.jobj [("p10", .jarr (r.p10.map (fun q => JSValue.jnum (.num q)))),
                     ("p50", .jarr (r.p50.map (fun q => JSValue.jnum (.num q)))),
                     ("p90", .jarr (r.p90.map (fun q => JSValue.jnum (.num q))))]) "p50"
      = some (.jarr (r.p50.map (fun q => JSValue.jnum (.num q)))) := rfl
  have hq90 : jsGetField (.jobj [("p10", .jarr (r.p10.map (fun q => JSValue.jnum (.num q)))),
                     ("p50", .jarr (r.p50.map (fun q => JSValue.jnum (.num q)))),
                     ("p90", .jarr (r.p90.map (fun q => JSValue.jnum (.num q))))]) "p90"
      = some (.jarr (r.p90.map (fun q => JSValue.jnum (.num q)))) := rfl
  have hlen : jsLength (.jarr (r.p50.map (fun q => JSValue.jnum (.num q))))
      = some (.jnum (.num ((r.p50.map (fun q => JSValue.jnum (.num q))).length : ℚ))) := rfl
  simp only [renderEval, hpbg, hsum, hpt, hmed, hp5, hp95, hq10, hq50, hq90, hlen,
    Option.getD_some, jsEntries, List.length_map, arrayCtorLen_natCast]
  split_ifs with h <;>
    simp only [summaryTextJS, probHTMLJS, renderedSummaryOf, renderedPillsOf, hlines, hpills,
      fanPlotJS, fanPlotOf, yearsJS, yearsAxisOf, histPlotJS, histPlotOf, jsToNumber,
      roundLocale, dollarGrouped, qToFixed1]

/-- C10 (confirmed): clearing always succeeds and is idempotent: after one
clear the stored portfolio is none (null) and the editor text is empty,
and a second clear changes nothing. -/
theorem clear_resets_and_idempotent (st : AppState) :
    (clearJsonClick st).currentPortfolioJSON = .jnull ∧
    (clearJsonClick st).jsonInput = "" ∧
    clearJsonClick (clearJsonClick st) = clearJsonClick st :=
  ⟨rfl, rfl, rfl⟩

/-- C4 (confirmed): precondition failures are reported without issuing a
request and without touching the store or the rendered output: a parse
click with no file selected only sets the error status text, and a
simulate click with no stored portfolio only raises the blocking alert. -/
theorem precondition_errors_no_request :
    (∀ (st : AppState) (o : FetchOutcome),
      (parseClick none o st).2 = false ∧
      (parseClick none o st).1.parseStatusText = "Please choose a .docx file" ∧
      (parseClick none o st).1.parseStatusIsError = true ∧
      (parseClick none o st).1.currentPortfolioJSON = st.currentPortfolioJSON ∧
      (parseClick none o st).1.jsonInput = st.jsonInput ∧
      (parseClick none o st).1.simSummary = st.simSummary ∧
      (parseClick none o st).1.probGoalsHTML = st.probGoalsHTML ∧
      (parseClick none o st).1.fanChart = st.fanChart ∧
      (parseClick none o st).1.histChart = st.histChart) ∧
    (∀ (st : AppState) (nv sv : String), st.currentPortfolioJSON = .jnull →
      (simulateStart nv sv st).request = none ∧
      (simulateStart nv sv st).alert = some "Load a portfolio first (parse or paste JSON)." ∧
      (simulateStart nv sv st).state = st) := by
  constructor
  · intro st o
    exact ⟨rfl, rfl, rfl, rfl, rfl, rfl, rfl, rfl, rfl⟩
  · intro st nv sv h
    simp [simulateStart, h, isFalsy]

theorem precondition_errors_no_request_witness :
    (parseClick none .netError initialState).2 = false ∧
    (simulateStart "" "" initialState).request = none :=
  ⟨(precondition_errors_no_request.1 initialState .netError).1,
   (precondition_errors_no_request.2 initialState "" "" rfl).1⟩

/-- C5 (confirmed): loading the editor text stores exactly the value the
JSON text denotes and alerts success; text that does not parse leaves the
whole state unchanged and alerts "Invalid JSON.". -/
theorem json_load_roundtrip :
    (∀ (st : AppState) (x : JSValue), jsonParse (jsTrim st.jsonInput) = some x →
      (useJsonClick st).1.currentPortfolioJSON = x ∧
      (useJsonClick st).1.jsonInput = st.jsonInput ∧
      (useJsonClick st).2 = "Portfolio JSON loaded.") ∧
    (∀ st : AppState, jsonParse (jsTrim st.jsonInput) = none →
      (useJsonClick st).1 = st ∧ (useJsonClick st).2 = "Invalid JSON.") := by
  constructor
  · intro st x hx
    simp [useJsonClick, hx]
  · intro st hx
    simp [useJsonClick, hx]

theorem json_load_roundtrip_witness :
    ((useJsonClick jsonSampleState).1.currentPortfolioJSON
        = .jarr [.jnum (.num 1), .jnum (.num (mkRat 5 2)), .jstr "x", .jnull, .jbool true] ∧
     (useJsonClick jsonSampleState).2 = "Portfolio JSON loaded.") ∧
    ((useJsonClick { initialState with jsonInput := "not json" }).1
        = { initialState with jsonInput := "not json" } ∧
     (useJsonClick { initialState with jsonInput := "not json" }).2 = "Invalid JSON.") :=
  have hx : jsonParse (jsTrim jsonSampleState.jsonInput)
      = some (.jarr [.jnum (.num 1), .jnum (.num (mkRat 5 2)), .jstr "x", .jnull, .jbool true]) := by
    rfl
  have hbad : jsonParse (jsTrim ({ initialState with jsonInput := "not json" } : AppState).jsonInput)
      = none := by rfl
  ⟨⟨(json_load_roundtrip.1 jsonSampleState _ hx).1,
    (json_load_roundtrip.1 jsonSampleState _ hx).2.2⟩,
   json_load_roundtrip.2 { initialState with jsonInput := "not json" } hbad⟩

/-- C9 (confirmed): the simulate gate tests JavaScript falsiness, not mere
presence: every falsy stored value (undefined, null, false, 0, NaN, the
empty string) raises the load-a-portfolio alert and issues no request,
although the editor texts "0", "false", "\"\"" and "null" are all accepted
by the JSON load action with the success notice — storing exactly such
falsy values. -/
theorem falsy_gate_vs_json_load :
    (∀ (st : AppState) (nv sv : String), isFalsy st.currentPortfolioJSON = true →
      (simulateStart nv sv st).request = none ∧
      (simulateStart nv sv st).alert = some "Load a portfolio first (parse or paste JSON)." ∧
      (simulateStart nv sv st).state = st) ∧
    (∀ st : AppState,
      ((useJsonClick { st with jsonInput := "0" }).2 = "Portfolio JSON loaded." ∧
        isFalsy (useJsonClick { st with jsonInput := "0" }).1.currentPortfolioJSON = true) ∧
      ((useJsonClick { st with jsonInput := "false" }).2 = "Portfolio JSON loaded." ∧
        isFalsy (useJsonClick { st with jsonInput := "false" }).1.currentPortfolioJSON = true) ∧
      ((useJsonClick { st with jsonInput := "\"\"" }).2 = "Portfolio JSON loaded." ∧
        isFalsy (useJsonClick { st with jsonInput := "\"\"" }).1.currentPortfolioJSON = true) ∧
      ((useJsonClick { st with jsonInput := "null" }).2 = "Portfolio JSON loaded." ∧
        isFalsy (useJsonClick { st with jsonInput := "null" }).1.currentPortfolioJSON = true)) := by
  constructor
  · intro st nv sv h
    simp [simulateStart, h]
  · intro st
    exact ⟨⟨rfl, rfl⟩, ⟨rfl, rfl⟩, ⟨rfl, rfl⟩, ⟨rfl, rfl⟩⟩

theorem falsy_gate_vs_json_load_witness :
    (simulateStart "5" "6" initialState).request = none ∧
    (simulateStart "5" "6" initialState).alert
      = some "Load a portfolio first (parse or paste JSON)." :=
  ⟨(falsy_gate_vs_json_load.1 initialState "5" "6" rfl).1,
   (falsy_gate_vs_json_load.1 initialState "5" "6" rfl).2.1⟩

/- Bridge lemmas: the integer-division forms used by the computable
definitions coincide with the textbook rounding formulas. -/

lemma qMul100_eq (q : ℚ) : qMul100 q = q * 100 := by
  have h100 : (100 : ℚ) = Rat.divInt (100 : ℤ) 1 := by
    rw [Rat.divInt_one]
    norm_num
  rw [qMul100, Rat.mkRat_eq_divInt]
  conv_rhs => rw [← Rat.num_divInt_den q, h100]
  rw [Rat.divInt_mul_divInt', mul_one]

lemma roundHalfUpZ_eq (q : ℚ) : roundHalfUpZ q = ⌊q + 1 / 2⌋ := by
  have hd : (q.den : ℚ) ≠ 0 := Nat.cast_ne_zero.mpr q.den_nz
  have h : q + 1 / 2 = ((2 * q.num + (q.den : ℤ) : ℤ) : ℚ) / ((2 * q.den : ℕ) : ℚ) := by
    conv_lhs => rw [← Rat.num_div_den q]
    push_cast
    field_simp
    ring
  rw [h, Rat.floor_intCast_div_natCast, roundHalfUpZ]
  push_cast
  rfl

lemma fixedTenths_eq (q : ℚ) : (fixedTenths q : ℤ) = ⌊10 * |q| + 1 / 2⌋ := by
  have hd : (q.den : ℚ) ≠ 0 := Nat.cast_ne_zero.mpr q.den_nz
  have habs : |q| = ((q.num.natAbs : ℤ) : ℚ) / ((q.den : ℕ) : ℚ) := by
    conv_lhs => rw [← Rat.num_div_den q]
    rw [abs_div, abs_of_nonneg (by positivity : (0 : ℚ) ≤ (q.den : ℚ))]
    congr 1
    push_cast [Int.cast_natAbs]
    rfl
  have h : 10 * |q| + 1 / 2
      = ((20 * (q.num.natAbs : ℤ) + (q.den : ℤ) : ℤ) : ℚ) / ((2 * q.den : ℕ) : ℚ) := by
    rw [habs]
    push_cast
    field_simp
    ring
  rw [h, Rat.floor_intCast_div_natCast, fixedTenths]
  push_cast [Int.ofNat_tdiv]
  rfl

lemma mkRat_div12 (m : ℕ) : (mkRat (m : ℤ) 12 : ℚ) = (m : ℚ) / 12 := by
  rw [Rat.mkRat_eq_divInt, Rat.divInt_eq_div]
  norm_num

/-- renderResults when rendering throws after the text writes. -/
lemma renderResults_throwAfterSummary (data : JSValue) (st : AppState) (s p : String)
    (h : renderEval data = .throwAfterSummary s p) :
    renderResults data st = ({ st with simSummary := s, probGoalsHTML := p }, true) := by
  unfold renderResults
  rw [h]

/-- renderResults when rendering succeeds. -/
lemma renderResults_success (data : JSValue) (st : AppState) (s p : String)
    (fan : FanPlot) (hist : HistPlot) (h : renderEval data = .success s p fan hist) :
    renderResults data st
      = ({ st with simSummary := s, probGoalsHTML := p,
                   fanChart := some fan, histChart := some hist }, false) := by
  unfold renderResults
  rw [h]

/-- C1 counterexample: a 200 response whose body is valid JSON without a
`portfolio` field is treated as success — the status reads "Parsed
successfully ✓", not the failure message, and the store is overwritten
with undefined, so the prior portfolio is lost. -/
theorem parse_missing_portfolio_field_counterexample :
    (parseClick (some ()) (.response 200 "\x7b\x7d") loadedState).1.parseStatusText
        = "Parsed successfully ✓" ∧
    "Parsed successfully ✓" ≠ "Failed to parse document" ∧
    (parseClick (some ()) (.response 200 "\x7b\x7d") loadedState).1.currentPortfolioJSON
        = .jundefined ∧
    loadedState.currentPortfolioJSON ≠ .jundefined := by
  refine ⟨rfl, by decide, rfl, ?_⟩
  simp [loadedState, initialState]

/-- C1 (amended): on a network error, a non-2xx status, a body that is not
valid JSON, or a JSON `null` body (whose property access throws), the
parse status becomes the generic failure message with the error style and
both the stored portfolio and the editor text are unchanged; a valid
non-null JSON body lacking `portfolio` is instead treated as success and
stores undefined. -/
theorem parse_failure_leaves_store_unchanged (st : AppState) (o : FetchOutcome)
    (h : o = .netError ∨ ∃ status body, o = .response status body ∧
          (respOk status = false ∨ jsonParse body = none ∨ jsonParse body = some .jnull)) :
    (parseClick (some ()) o st).1.parseStatusText = "Failed to parse document" ∧
    (parseClick (some ()) o st).1.parseStatusIsError = true ∧
    (parseClick (some ()) o st).1.currentPortfolioJSON = st.currentPortfolioJSON ∧
    (parseClick (some ()) o st).1.jsonInput = st.jsonInput := by
  rcases h with rfl | ⟨status, body, rfl, hcase⟩
  · exact ⟨rfl, rfl, rfl, rfl⟩
  · by_cases hr : respOk status = true
    · rcases hcase with hok | hjson | hnull
      · exact absurd hr (by simp [hok])
      · simp [parseClick, hr, hjson]
      · simp [parseClick, hr, hnull, jsGetField]
    · simp [parseClick, hr]

theorem parse_failure_leaves_store_unchanged_witness :
    (parseClick (some ()) (.response 500 "ok") loadedState).1.parseStatusText
        = "Failed to parse document" ∧
    (parseClick (some ()) (.response 500 "ok") loadedState).1.currentPortfolioJSON
        = loadedState.currentPortfolioJSON :=
  ⟨(parse_failure_leaves_store_unchanged loadedState _
      (Or.inr ⟨500, "ok", rfl, Or.inl rfl⟩)).1,
   (parse_failure_leaves_store_unchanged loadedState _
      (Or.inr ⟨500, "ok", rfl, Or.inl rfl⟩)).2.2.1⟩

/-- C2 counterexample: with a portfolio loaded, the non-numeric inputs
"abc" / "xyz" produce a request carrying NaN for both parameters — not the
defaults 10000 / 42 the claim asserts for non-numeric input. -/
theorem simulate_nonnumeric_input_counterexample :
    (simulateStart "abc" "xyz" loadedState).request =
      some { portfolio := .jobj [("accounts", .jarr [])], n_paths := .nan, seed := .nan } ∧
    JSNum.nan ≠ JSNum.num 10000 ∧ JSNum.nan ≠ JSNum.num 42 :=
  ⟨rfl, by decide, by decide⟩

/-- C2 (amended): the defaults apply exactly when the corresponding input
string is empty (the only falsy string): an empty n_paths input yields
10000 and an empty seed input yields 42, independently, while any
non-empty input is coerced with Number(), so non-numeric text yields NaN
(which JSON-serialises as null) rather than the default. -/
theorem simulate_param_defaults (st : AppState) (nv sv : String)
    (h : isFalsy st.currentPortfolioJSON = false) :
    (simulateStart nv sv st).request = some
      { portfolio := st.currentPortfolioJSON,
        n_paths := if nv = "" then .num 10000 else strToNumber nv,
        seed := if sv = "" then .num 42 else strToNumber sv } := by
  rw [simulateStart, if_neg (by simp [h])]
  by_cases hn : nv = "" <;> by_cases hs : sv = "" <;>
    simp [jsOr, isFalsy, jsToNumber, hn, hs]

theorem simulate_param_defaults_witness :
    (simulateStart "" "" loadedState).request = some
      { portfolio := loadedState.currentPortfolioJSON,
        n_paths := .num 10000, seed := .num 42 } :=
  simulate_param_defaults loadedState "" "" rfl

/-- C3 (confirmed): every failing simulate attempt — network error,
non-2xx status, a body that is not valid JSON, or a body whose rendering
throws — ends with the summary slot overwritten by "Simulation failed."
and both chart surfaces exactly as they were before the attempt. -/
theorem simulate_failure_preserves_charts (st : AppState) (o : FetchOutcome)
    (h : simAttemptFails o = true) :
    (simulateResume o st).simSummary = "Simulation failed." ∧
    (simulateResume o st).fanChart = st.fanChart ∧
    (simulateResume o st).histChart = st.histChart := by
  cases o with
  | netError => exact ⟨rfl, rfl, rfl⟩
  | response status body =>
    by_cases hr : respOk status = true
    · cases hj : jsonParse body with
      | none => simp [simulateResume, hr, hj]
      | some data =>
        cases he : renderEval data with
        | throwBeforeWrites => simp [simulateResume, renderResults, hr, hj, he]
        | throwAfterSummary s p => simp [simulateResume, renderResults, hr, hj, he]
        | success s p fan hist => simp [simAttemptFails, hr, hj, he] at h
    · simp [simulateResume, hr]

theorem simulate_failure_preserves_charts_witness :
    (simulateResume (.response 500 "irrelevant") chartedState).simSummary
        = "Simulation failed." ∧
    (simulateResume (.response 500 "irrelevant") chartedState).fanChart
        = chartedState.fanChart ∧
    (simulateResume (.response 500 "irrelevant") chartedState).histChart
        = chartedState.histChart :=
  simulate_failure_preserves_charts chartedState _ rfl

/-- C6 counterexample: at the spec's own worked example the rendered
summary is the claimed layout PRECEDED by a header line
"Goal Probabilities", so it does not consist only of the parts the claim
lists. -/
theorem summary_header_line_counterexample :
    (renderResults (embedResponse demoResponse) initialState).1.simSummary
        = "Goal Probabilities\nretirement: 82.3%\n\nMedian terminal: $1,234,567\n5th–95th: $500,000 – $3,000,000" ∧
    specSummaryText demoResponse
        = "retirement: 82.3%\n\nMedian terminal: $1,234,567\n5th–95th: $500,000 – $3,000,000" ∧
    (renderResults (embedResponse demoResponse) initialState).1.simSummary
        ≠ specSummaryText demoResponse :=
  ⟨rfl, rfl, by decide⟩

/-- C6 (amended): the rendered summary is the newline-join of five blocks:
the header "Goal Probabilities", the per-goal lines
"<goal>: <p*100 rounded half-up to 1 decimal>%" joined by newlines, an
empty block, the median line and the 5th–95th line with amounts rounded
half-up and thousands-grouped — that is, the claimed layout preceded by a
header line — and every probability pill carries the same percentage
format. -/
theorem summary_text_format (r : SimulationResponse) (st : AppState) :
    (renderResults (embedResponse r) st).1.simSummary = renderedSummaryOf r ∧
    (renderResults (embedResponse r) st).1.probGoalsHTML = renderedPillsOf r := by
  have h := renderEval_embed r
  by_cases hl : r.p50.length < 4294967296
  · rw [if_pos hl] at h
    simp [renderResults, h]
  · rw [if_neg hl] at h
    simp [renderResults, h]

/-- C7 counterexample: a response whose p50 has 2^32 entries makes
`Array(p50.length)` throw a RangeError, so no fan chart is drawn at all —
in particular the chart is not the three-trace plot the claim describes. -/
theorem fan_chart_huge_length_counterexample :
    (renderResults (embedResponse bigResponse) initialState).1.fanChart = none ∧
    (renderResults (embedResponse bigResponse) initialState).1.fanChart
        ≠ some (fanPlotOf bigResponse) := by
  have hp50 : bigResponse.p50 = List.replicate 4294967296 1 := rfl
  have hnlt : ¬ (bigResponse.p50.length < 4294967296) := by
    rw [hp50, List.length_replicate]
    exact Nat.lt_irrefl _
  have h := renderEval_embed bigResponse
  rw [if_neg hnlt] at h
  have h1 : (renderResults (embedResponse bigResponse) initialState).1.fanChart = none := by
    rw [renderResults_throwAfterSummary _ _ _ _ h]
    rfl
  refine ⟨h1, ?_⟩
  rw [h1]
  exact fun hcontra => Option.noConfusion hcontra

/-- C7 (corrected/amended): provided p50 has fewer than 2^32 entries (the
Array-constructor bound), the fan chart consists of exactly three traces
sharing the x-axis index/12-to-1-decimal derived from p50's length, drawn
in the order p90 (no visible line), p10 (no visible line, filled to the
previous trace), p50 (visible line labelled "Median"); a 25-point p50
yields 25 x values from "0.0" to "2.0". -/
theorem fan_chart_axes_and_traces (r : SimulationResponse) (st : AppState)
    (h : r.p50.length < 4294967296) :
    (renderResults (embedResponse r) st).1.fanChart = some (fanPlotOf r) ∧
    fanPlotOf r =
      { traces :=
          [{ x := yearsAxisOf r.p50.length,
             y := .jarr (r.p90.map (fun q => JSValue.jnum (.num q))), mode := "lines",
             line := { width := 0, color := none }, fill := none, fillcolor := none,
             showlegend := some false, name := "90th", hoverinfo := some "skip" },
           { x := yearsAxisOf r.p50.length,
             y := .jarr (r.p10.map (fun q => JSValue.jnum (.num q))), mode := "lines",
             line := { width := 0, color := none }, fill := some "tonexty",
             fillcolor := some "rgba(33,150,243,0.15)",
             showlegend := some false, name := "10th", hoverinfo := some "skip" },
           { x := yearsAxisOf r.p50.length,
             y := .jarr (r.p50.map (fun q => JSValue.jnum (.num q))), mode := "lines",
             line := { width := 2, color := some "#2196F3" }, fill := none,
             fillcolor := none, showlegend := none, name := "Median", hoverinfo := none }],
        title := "Projected Wealth (Percentiles)",
        xaxisTitle := "Years", yaxisTitle := "Portfolio Value ($)" } ∧
    yearsAxisOf r.p50.length
        = (List.range r.p50.length).map (fun m : ℕ => qToFixed1 ((m : ℚ) / 12)) ∧
    ((yearsAxisOf 25).length = 25 ∧ (yearsAxisOf 25).head? = some "0.0" ∧
      (yearsAxisOf 25).getLast? = some "2.0") := by
  have hre := renderEval_embed r
  rw [if_pos h] at hre
  refine ⟨by simp [renderResults, hre], rfl, ?_, by decide, by decide, by decide⟩
  simp only [yearsAxisOf]
  exact List.map_congr_left fun m _ => congrArg qToFixed1 (mkRat_div12 m)

theorem fan_chart_axes_and_traces_witness :
    (renderResults (embedResponse demoResponse) initialState).1.fanChart
        = some (fanPlotOf demoResponse) :=
  (fan_chart_axes_and_traces demoResponse initialState (by norm_num [demoResponse])).1

/-- C8 counterexample: with a portfolio loaded, two simulate clicks are
issued before either resolves. The response answering request 1 (the
most recently issued; median 222) arrives first; the response answering
request 0 (median 111) arrives last. The handler has no sequence token,
so the displayed summary is request 0's — not the most recent request's —
refuting the claim. -/
theorem overlapping_simulate_counterexample :
    (runUI loadedState
      [.simulateClickEvent "" "", .simulateClickEvent "" "",
       .simulateResponseArrives 1 (.response 200 simBodyB),
       .simulateResponseArrives 0 (.response 200 simBodyA)]).simSummary
        = "Goal Probabilities\ng: 100.0%\n\nMedian terminal: $111\n5th–95th: $1 – $1" ∧
    renderedSummaryOf responseB
        = "Goal Probabilities\ng: 100.0%\n\nMedian terminal: $222\n5th–95th: $1 – $1" ∧
    "Goal Probabilities\ng: 100.0%\n\nMedian terminal: $111\n5th–95th: $1 – $1"
        ≠ "Goal Probabilities\ng: 100.0%\n\nMedian terminal: $222\n5th–95th: $1 – $1" :=
  ⟨rfl, rfl, by decide⟩

/-- C8 (amended): there is no sequence-token discard, so whichever
response arrives last determines the rendered output, regardless of which
request it answers, of issue order, and of whatever arrived before: when
the last arrival is an ok response whose body parses and renders
successfully, the final summary, pills and both charts are exactly that
response's. -/
theorem overlapping_simulate_last_arrival_wins
    (st : AppState) (n1 s1 n2 s2 : String) (i j : Nat) (oA : FetchOutcome)
    (status : Nat) (body : String) (d : JSValue) (sm ph : String)
    (fan : FanPlot) (hist : HistPlot)
    (hok : respOk status = true) (hparse : jsonParse body = some d)
    (hrender : renderEval d = .success sm ph fan hist) :
    (runUI st [.simulateClickEvent n1 s1, .simulateClickEvent n2 s2,
               .simulateResponseArrives i oA,
               .simulateResponseArrives j (.response status body)]).simSummary = sm ∧
    (runUI st [.simulateClickEvent n1 s1, .simulateClickEvent n2 s2,
               .simulateResponseArrives i oA,
               .simulateResponseArrives j (.response status body)]).probGoalsHTML = ph ∧
    (runUI st [.simulateClickEvent n1 s1, .simulateClickEvent n2 s2,
               .simulateResponseArrives i oA,
               .simulateResponseArrives j (.response status body)]).fanChart = some fan ∧
    (runUI st [.simulateClickEvent n1 s1, .simulateClickEvent n2 s2,
               .simulateResponseArrives i oA,
               .simulateResponseArrives j (.response status body)]).histChart = some hist := by
  simp [runUI, stepUI, simulateResume, renderResults, hok, hparse, hrender]

theorem overlapping_simulate_last_arrival_wins_witness :
    (runUI loadedState
      [.simulateClickEvent "" "", .simulateClickEvent "" "",
       .simulateResponseArrives 0 .netError,
       .simulateResponseArrives 1 (.response 200 simBodyB)]).simSummary
        = renderedSummaryOf responseB :=
  (overlapping_simulate_last_arrival_wins loadedState "" "" "" "" 0 1 .netError 200 simBodyB
    (embedResponse responseB) (renderedSummaryOf responseB) (renderedPillsOf responseB)
    (fanPlotOf responseB) (histPlotOf responseB) rfl rfl
    (by rw [renderEval_embed]; rfl)).1
